import Mathlib

/-!
Shallow embedding of the Hack-A-Holiday deployment scripts:
  * `src/deploy-sagemaker-model.py`  (namespace `DeploySagemakerModel`)
  * `src/scripts/deploy-sagemaker.py` (namespace `ScriptsDeploySagemaker`)

Both scripts are sequential orchestration glue around AWS IAM / SageMaker API
calls.  We embed them as pure functions from a provider-behaviour oracle
(structures of functions describing how each provider call answers) to a pair
of (trace of issued calls and console output, result).  A Python exception
escaping a function boundary is modelled as an `Except.error`; a Python
`return` after a caught exception is `Except.ok`.
-/

/-- The single-statement IAM trust-policy document built by the first script
(`Version`, one statement with `Effect`/`Principal.Service`/`Action`). -/
structure TrustPolicy where
  version : String
  effect : String
  principalService : String
  action : String
deriving DecidableEq, Repr

/-- Generation parameters sent in the second script's smoke-test payloads
(`max_new_tokens`, `temperature`, `top_p`, `do_sample`). -/
structure GenParams where
  max_new_tokens : Nat
  temperature : ℚ
  top_p : ℚ
  do_sample : Bool
deriving DecidableEq, Repr

/-- An inference request body: the `inputs` string plus the optional
`parameters` dictionary. -/
structure Payload where
  inputs : String
  parameters : Option GenParams
deriving DecidableEq, Repr

/-- The hosting configuration handed to `HuggingFaceModel.deploy`: either the
dedicated-instance variant (`instance_type` + `initial_instance_count`) or the
serverless variant (`ServerlessInferenceConfig` with `memory_size_in_mb` +
`max_concurrency`).  The two are mutually exclusive in the SDK call. -/
inductive HostingConfig where
  | instanceBased (instanceType : String) (initialInstanceCount : Nat)
  | serverless (memorySizeInMb : Nat) (maxConcurrency : Nat)
deriving DecidableEq, Repr

/-- The `HuggingFaceModel(...)` constructor arguments: `model_data` dictionary
(script 1 only), framework version pins, execution role ARN, and the `env`
dictionary. -/
structure HuggingFaceModelCfg where
  model_data : List (String × String)
  transformers_version : String
  pytorch_version : String
  py_version : String
  role : String
  env : List (String × String)
deriving DecidableEq, Repr

/-- The predictor object returned by a successful `deploy` call; the scripts
only use its `endpoint_name` and its `predict` method. -/
structure Predictor where
  endpoint_name : String
deriving DecidableEq, Repr

/-- One entry of `sagemaker.list_endpoints()['Endpoints']`. -/
structure EndpointSummary where
  endpointName : String
  endpointStatus : String
  creationTime : String
deriving DecidableEq, Repr

/-- Observable actions of a run: provider API calls as issued (recorded whether
or not the provider then fails them), the fixed `time.sleep`, and console
output lines. -/
inductive Event where
  | getRole (roleName : String)
  | createRole (roleName : String) (assumeRolePolicyDocument : TrustPolicy)
      (description : String)
  | attachRolePolicy (roleName : String) (policyArn : String)
  | sleep (seconds : Nat)
  | consoleOut (line : String)
  | deployCall (model : HuggingFaceModelCfg) (endpointName : String)
      (config : HostingConfig) (tags : List (String × String))
  | predictCall (endpointName : String) (payload : Payload)
  | listEndpointsCall
  | describeEndpointCall (endpointName : String)
  | deleteEndpointCall (endpointName : String)
  | deleteEndpointConfigCall (endpointConfigName : String)
deriving DecidableEq, Repr

/-- Outcome of `iam.get_role`: success with the role's ARN, the
`NoSuchEntityException` the script catches, or any other exception. -/
inductive GetRoleOutcome where
  | found (arn : String)
  | noSuchEntity
  | failure (msg : String)
deriving DecidableEq, Repr

/-- Outcome of `client.describe_endpoint`: the reported `EndpointStatus`, a
`ClientError` carrying its rendered message `str(e)`, or an exception that is
not a `ClientError` (a connection or credentials failure, say), which the
`except client.exceptions.ClientError` handler does not catch. -/
inductive DescribeOutcome where
  | ok (status : String)
  | clientError (msg : String)
  | failure (msg : String)
deriving DecidableEq, Repr

/-- Behaviour of the IAM side of the provider: how each IAM call answers.
`Except.error m` means the call raises an exception rendering as `m`. -/
structure IAMBehavior where
  getRoleResult : String → GetRoleOutcome
  createRoleResult : String → TrustPolicy → String → Except String String
  attachRolePolicyResult : String → String → Except String Unit

/-- Behaviour of the SageMaker side of the provider (including the ambient
boto3 session's region and, for the second script,
`sagemaker.get_execution_role()`). -/
structure SageMakerBehavior where
  deployResult : HuggingFaceModelCfg → String → HostingConfig →
    List (String × String) → Except String Predictor
  predictResult : String → Payload → Except String (List (List (String × String)))
  listEndpointsResult : Except String (List EndpointSummary)
  describeEndpointResult : String → DescribeOutcome
  deleteEndpointResult : String → Except String Unit
  deleteEndpointConfigResult : String → Except String Unit
  getExecutionRoleResult : Except String String
  region_name : String

/-- The ASCII apostrophe character, used inside several printed messages. -/
def sglq : String := String.singleton (Char.ofNat 39)

/-- A row of 60 equals signs (`"="*60`). -/
def eq60 : String := String.mk (List.replicate 60 (Char.ofNat 61))

/-- A row of 60 dashes (`"-"*60`). -/
def dash60 : String := String.mk (List.replicate 60 (Char.ofNat 45))

/-- Whether `needle` is a leading segment of `haystack` (on character lists);
helper for modelling Python's substring test. -/
def charsStart : List Char → List Char → Bool
  | [], _ => true
  | _ :: _, [] => false
  | n :: ns, h :: hs => n = h && charsStart ns hs

/-- Whether `needle` occurs contiguously inside `haystack` (character lists). -/
def charsOccur (needle : List Char) : List Char → Bool
  | [] => charsStart needle []
  | h :: hs => charsStart needle (h :: hs) || charsOccur needle hs

/-- Python's `needle in haystack` on strings (contiguous substring test). -/
def strOccurs (needle haystack : String) : Bool :=
  charsOccur needle.data haystack.data

namespace DeploySagemakerModel

/-- The fixed execution-role name used by `get_execution_role`. -/
def role_name : String := "SageMakerTravelAssistantRole"

/-- The trust-policy document constructed on the create path of
`get_execution_role`. -/
def trust_policy : TrustPolicy :=
  { version := "2012-10-17"
    effect := "Allow"
    principalService := "sagemaker.amazonaws.com"
    action := "sts:AssumeRole" }

/-- The description passed to `iam.create_role`. -/
def role_description : String :=
  "Execution role for Travel Assistant SageMaker endpoint"

/-- The managed policy attached on the create path. -/
def sagemaker_full_access : String :=
  "arn:aws:iam::aws:policy/AmazonSageMakerFullAccess"

/-- Console lines printed by the outer `except` of `get_execution_role`
before it re-raises. -/
def iam_error_prints (e : String) : List Event :=
  [Event.consoleOut ("Error with IAM role: " ++ e),
   Event.consoleOut "\nPlease manually create a SageMaker execution role with:",
   Event.consoleOut "1. Trust policy for sagemaker.amazonaws.com",
   Event.consoleOut "2. AmazonSageMakerFullAccess policy attached"]

/-- Embedding of `get_execution_role` (script 1): look the fixed role up; on
`NoSuchEntityException` create it with the trust policy, attach the managed
policy and sleep 10 seconds; any other failure prints hints and re-raises. -/
def get_execution_role (iam : IAMBehavior) : List Event × Except String String :=
  match iam.getRoleResult role_name with
  | GetRoleOutcome.found arn =>
      ([Event.getRole role_name,
        Event.consoleOut ("✓ Using existing role: " ++ arn)], Except.ok arn)
  | GetRoleOutcome.noSuchEntity =>
      let pre := [Event.getRole role_name,
        Event.consoleOut ("Creating new IAM role: " ++ role_name),
        Event.createRole role_name trust_policy role_description]
      match iam.createRoleResult role_name trust_policy role_description with
      | Except.error e => (pre ++ iam_error_prints e, Except.error e)
      | Except.ok arn =>
          let pre2 := pre ++ [Event.attachRolePolicy role_name sagemaker_full_access]
          match iam.attachRolePolicyResult role_name sagemaker_full_access with
          | Except.error e => (pre2 ++ iam_error_prints e, Except.error e)
          | Except.ok _ =>
              (pre2 ++ [Event.consoleOut "Waiting for role to propagate...",
                Event.sleep 10,
                Event.consoleOut ("✓ Created role: " ++ arn)], Except.ok arn)
  | GetRoleOutcome.failure e =>
      ([Event.getRole role_name] ++ iam_error_prints e, Except.error e)

/-- The `HuggingFaceModel(...)` built by `deploy_model` (script 1). -/
def model_cfg (role : String) : HuggingFaceModelCfg :=
  { model_data := [("HF_MODEL_ID", "facebook/blenderbot-400M-distill"),
      ("HF_TASK", "conversational")]
    transformers_version := "4.26.0"
    pytorch_version := "1.13.1"
    py_version := "py39"
    role := role
    env := [("HF_MODEL_ID", "facebook/blenderbot-400M-distill"),
      ("HF_TASK", "conversational"), ("MAX_LENGTH", "512"),
      ("TEMPERATURE", "0.7")] }

/-- The smoke-test payload sent once after a successful deploy in
`deploy_model`. -/
def test_payload : Payload :=
  { inputs := "Hello! I want to plan a trip to Japan.", parameters := none }

/-- The hard-coded hourly cost table (`get_estimated_cost`). -/
def get_estimated_cost (instance_type : String) : String :=
  if instance_type = "ml.t2.medium" then "0.065"
  else if instance_type = "ml.t2.large" then "0.130"
  else if instance_type = "ml.m5.large" then "0.134"
  else if instance_type = "ml.g4dn.xlarge" then "0.736"
  else if instance_type = "ml.inf1.xlarge" then "0.228"
  else "unknown"

/-- Console lines of the broad `except` at the end of `deploy_model`. -/
def troubleshooting (e : String) : List Event :=
  [Event.consoleOut ("\n❌ Deployment failed: " ++ e),
   Event.consoleOut "\nTroubleshooting:",
   Event.consoleOut "1. Check AWS credentials are configured",
   Event.consoleOut "2. Verify IAM role has correct permissions",
   Event.consoleOut "3. Ensure you have SageMaker quota for instance type",
   Event.consoleOut "4. Check CloudWatch logs for details"]

/-- Embedding of `deploy_model` (script 1): get the role (abort with a print
on failure), build the model configuration, deploy on a dedicated instance,
then on success print the summary and send one test payload.  Every failure is
caught, so the function itself never raises. -/
def deploy_model (iam : IAMBehavior) (sm : SageMakerBehavior)
    (instance_type endpoint_name : String) : List Event × Except String Unit :=
  let header := [Event.consoleOut ("\n" ++ eq60),
    Event.consoleOut "🚀 SageMaker Travel AI Assistant Deployment",
    Event.consoleOut (eq60 ++ "\n")]
  match get_execution_role iam with
  | (tr, Except.error e) =>
      (header ++ tr ++
        [Event.consoleOut ("❌ Failed to get execution role: " ++ e)],
       Except.ok ())
  | (tr, Except.ok role) =>
      let cfg := model_cfg role
      let t1 := header ++ tr ++
        [Event.consoleOut "\n📦 Preparing Hugging Face model...",
         Event.consoleOut "   Model: facebook/blenderbot-400M-distill",
         Event.consoleOut ("   Instance: " ++ instance_type),
         Event.consoleOut ("   Endpoint: " ++ endpoint_name),
         Event.consoleOut "✓ Model configuration created",
         Event.consoleOut ("\n🚀 Deploying model to endpoint: " ++ endpoint_name),
         Event.consoleOut "⏳ This may take 5-10 minutes...",
         Event.deployCall cfg endpoint_name
           (HostingConfig.instanceBased instance_type 1) []]
      match sm.deployResult cfg endpoint_name
          (HostingConfig.instanceBased instance_type 1) [] with
      | Except.error e => (t1 ++ troubleshooting e, Except.ok ())
      | Except.ok p =>
          let t2 := t1 ++ [Event.consoleOut ("\n" ++ eq60),
            Event.consoleOut "✅ DEPLOYMENT SUCCESSFUL!",
            Event.consoleOut eq60,
            Event.consoleOut ("\n📍 Endpoint Name: " ++ endpoint_name),
            Event.consoleOut ("🔗 Region: " ++ sm.region_name),
            Event.consoleOut ("💰 Instance Type: " ++ instance_type),
            Event.consoleOut "\n⚙️  Update your backend .env file:",
            Event.consoleOut ("   SAGEMAKER_ENDPOINT_NAME=" ++ endpoint_name),
            Event.consoleOut ("   AWS_REGION=" ++ sm.region_name),
            Event.consoleOut "\n🧪 Testing endpoint...",
            Event.predictCall p.endpoint_name test_payload]
          match sm.predictResult p.endpoint_name test_payload with
          | Except.error e => (t2 ++ troubleshooting e, Except.ok ())
          | Except.ok response =>
              let r := toString response
              (t2 ++ [Event.consoleOut ("✓ Test response: " ++ r),
                Event.consoleOut "\n📊 Estimated Cost:",
                Event.consoleOut ("   ~$" ++ get_estimated_cost instance_type
                  ++ "/hour"),
                Event.consoleOut "\n💡 To delete endpoint later, run:",
                Event.consoleOut ("   aws sagemaker delete-endpoint --endpoint-name "
                  ++ endpoint_name)], Except.ok ())

/-- The `HuggingFaceModel(...)` built by `deploy_serverless` (same pins, no
`env` argument). -/
def serverless_model_cfg (role : String) : HuggingFaceModelCfg :=
  { model_data := [("HF_MODEL_ID", "facebook/blenderbot-400M-distill"),
      ("HF_TASK", "conversational")]
    transformers_version := "4.26.0"
    pytorch_version := "1.13.1"
    py_version := "py39"
    role := role
    env := [] }

/-- Embedding of `deploy_serverless` (script 1): get the role, then deploy with
a `ServerlessInferenceConfig(memory_size_in_mb=4096, max_concurrency=10)`.
Every failure is caught, so the function itself never raises. -/
def deploy_serverless (iam : IAMBehavior) (sm : SageMakerBehavior)
    (endpoint_name : String) : List Event × Except String Unit :=
  let header := [Event.consoleOut ("\n" ++ eq60),
    Event.consoleOut "🚀 SageMaker Serverless Deployment",
    Event.consoleOut (eq60 ++ "\n")]
  match get_execution_role iam with
  | (tr, Except.error e) =>
      (header ++ tr ++
        [Event.consoleOut ("❌ Failed to get execution role: " ++ e)],
       Except.ok ())
  | (tr, Except.ok role) =>
      let cfg := serverless_model_cfg role
      let t1 := header ++ tr ++
        [Event.consoleOut "\n📦 Preparing serverless deployment...",
         Event.consoleOut "🚀 Deploying serverless endpoint...",
         Event.deployCall cfg endpoint_name (HostingConfig.serverless 4096 10) []]
      match sm.deployResult cfg endpoint_name
          (HostingConfig.serverless 4096 10) [] with
      | Except.error e =>
          (t1 ++ [Event.consoleOut ("❌ Serverless deployment failed: " ++ e)],
           Except.ok ())
      | Except.ok _ =>
          (t1 ++ [Event.consoleOut "\n✅ Serverless deployment successful!",
            Event.consoleOut ("📍 Endpoint: " ++ endpoint_name),
            Event.consoleOut "\n💰 Pricing: Pay only for inference time",
            Event.consoleOut "   No charges when idle!"], Except.ok ())

/-- Embedding of `list_endpoints` (script 1). -/
def list_endpoints (sm : SageMakerBehavior) : List Event × Except String Unit :=
  match sm.listEndpointsResult with
  | Except.error e =>
      ([Event.listEndpointsCall,
        Event.consoleOut ("Error listing endpoints: " ++ e)], Except.ok ())
  | Except.ok eps =>
      if eps.isEmpty then
        ([Event.listEndpointsCall, Event.consoleOut "No endpoints found"],
         Except.ok ())
      else
        ([Event.listEndpointsCall,
          Event.consoleOut "\n📍 Existing SageMaker Endpoints:",
          Event.consoleOut dash60] ++
         eps.flatMap (fun ep =>
           [Event.consoleOut ("   Name: " ++ ep.endpointName),
            Event.consoleOut ("   Status: " ++ ep.endpointStatus),
            Event.consoleOut ("   Created: " ++ ep.creationTime),
            Event.consoleOut dash60]), Except.ok ())

/-- Embedding of `delete_endpoint` (script 1): request endpoint deletion; if
that call raises, the broad outer catch prints and returns (no config-delete
attempt).  On success, attempt to delete the same-named endpoint config,
ignoring any failure of that second call (`except: pass`). -/
def delete_endpoint (sm : SageMakerBehavior) (endpoint_name : String) :
    List Event × Except String Unit :=
  let t0 := [Event.consoleOut ("🗑️  Deleting endpoint: " ++ endpoint_name),
    Event.deleteEndpointCall endpoint_name]
  match sm.deleteEndpointResult endpoint_name with
  | Except.error e =>
      (t0 ++ [Event.consoleOut ("Error deleting endpoint: " ++ e)], Except.ok ())
  | Except.ok _ =>
      let t1 := t0 ++ [Event.consoleOut "✓ Endpoint deleted successfully",
        Event.deleteEndpointConfigCall endpoint_name]
      match sm.deleteEndpointConfigResult endpoint_name with
      | Except.error _ => (t1, Except.ok ())
      | Except.ok _ =>
          (t1 ++ [Event.consoleOut "✓ Endpoint config deleted"], Except.ok ())

/-- The parsed command-line arguments of script 1 (`argparse` defaults:
`--instance-type ml.t2.medium`, `--endpoint-name travel-assistant-endpoint`,
`--delete` absent). -/
structure Args where
  instance_type : String
  endpoint_name : String
  serverless : Bool
  list : Bool
  delete : Option String
deriving DecidableEq, Repr

/-- Python truthiness of an optional string (`None` and `""` are falsy). -/
def optTruthy : Option String → Bool
  | none => false
  | some s => s ≠ ""

/-- Embedding of script 1's `__main__` dispatch: `--list`, then `--delete`,
then `--serverless`, otherwise the default dedicated-instance deploy. -/
def main_dispatch (iam : IAMBehavior) (sm : SageMakerBehavior) (args : Args) :
    List Event × Except String Unit :=
  if args.list then list_endpoints sm
  else if optTruthy args.delete then delete_endpoint sm (args.delete.getD "")
  else if args.serverless then deploy_serverless iam sm args.endpoint_name
  else deploy_model iam sm args.instance_type args.endpoint_name

end DeploySagemakerModel

namespace ScriptsDeploySagemaker

/-- The `HuggingFaceModel(...)` built by `deploy_travel_model` (script 2): no
`model_data`, newer framework pins, the model identity and generation
parameters all in `env`. -/
def travel_model_cfg (role : String) : HuggingFaceModelCfg :=
  { model_data := []
    transformers_version := "4.28"
    pytorch_version := "2.0"
    py_version := "py310"
    role := role
    env := [("HF_MODEL_ID", "microsoft/DialoGPT-large"),
      ("HF_TASK", "text-generation"), ("MAX_LENGTH", "1000"),
      ("TEMPERATURE", "0.7"), ("TOP_P", "0.9"), ("DO_SAMPLE", "true"),
      ("REPETITION_PENALTY", "1.1"), ("TRAVEL_CONTEXT", "true"),
      ("SYSTEM_PROMPT", "You are an expert AI travel assistant. Help users plan trips, provide travel advice, and answer travel-related questions with enthusiasm and detailed information.")] }

/-- The tags passed to `deploy` by `deploy_travel_model`. -/
def travel_tags : List (String × String) :=
  [("Project", "TravelCompanion"), ("Environment", "Production"),
   ("Model", "DialoGPT-Travel")]

/-- The fixed prompt list of `test_model`. -/
def test_queries : List String :=
  ["Plan a 3-day itinerary for Paris",
   "What are the best travel tips for Japan?",
   "Recommend activities for a family vacation in Orlando"]

/-- The generation parameters `test_model` sends with every prompt. -/
def test_gen_params : GenParams :=
  { max_new_tokens := 200
    temperature := (0.7 : ℚ)
    top_p := (0.9 : ℚ)
    do_sample := true }

/-- The payload `test_model` sends for one query: the prefixed prompt plus the
fixed generation parameters. -/
def test_payload_for (query : String) : Payload :=
  { inputs := "You are a helpful travel assistant. " ++ query
    parameters := some test_gen_params }

/-- One iteration of `test_model`'s loop: print the header, send the request,
then either print the truncated response or, if anything in the iteration
raises (the request itself, or `response[0]` on an empty response list),
catch it and print the per-test failure line. -/
def test_one (sm : SageMakerBehavior) (p : Predictor) (i : Nat)
    (query : String) : List Event :=
  let payload := test_payload_for query
  [Event.consoleOut ("\n🔍 Test " ++ toString i ++ ": " ++ query),
   Event.predictCall p.endpoint_name payload] ++
  match sm.predictResult p.endpoint_name payload with
  | Except.error e =>
      [Event.consoleOut ("❌ Test " ++ toString i ++ " failed: " ++ e)]
  | Except.ok [] =>
      [Event.consoleOut ("❌ Test " ++ toString i
        ++ " failed: list index out of range")]
  | Except.ok (first :: _) =>
      let generated_text := (first.lookup "generated_text").getD "No response"
      let truncated := generated_text.take 200
      [Event.consoleOut ("✅ Response: " ++ truncated ++ "...")]

/-- Embedding of `test_model` (script 2): enumerate the fixed queries from 1
and run each iteration; per-iteration failures are caught inside `test_one`,
so the function never raises. -/
def test_model (sm : SageMakerBehavior) (p : Predictor) : List Event :=
  [Event.consoleOut "\n🧪 Testing deployed model..."] ++
  (test_queries.enumFrom 1).flatMap (fun iq => test_one sm p iq.1 iq.2)

/-- Embedding of `deploy_travel_model` (script 2): obtain the execution role
via `sagemaker.get_execution_role()` (returning `None` on failure), build the
model, deploy serverless with tags, smoke-test on success, and return the
deployed predictor's endpoint name; return `None` if the deploy raises. -/
def deploy_travel_model (sm : SageMakerBehavior) :
    List Event × Option String :=
  let t0 := [Event.consoleOut
    "🚀 Starting SageMaker model deployment for Travel Assistant..."]
  match sm.getExecutionRoleResult with
  | Except.error e =>
      (t0 ++ [Event.consoleOut ("❌ Error getting SageMaker role: " ++ e),
        Event.consoleOut ("💡 Make sure you" ++ sglq
          ++ "re running this from a SageMaker environment or set the role manually")],
       none)
  | Except.ok role =>
      let cfg := travel_model_cfg role
      let sc := HostingConfig.serverless 4096 10
      let t1 := t0 ++
        [Event.consoleOut ("✅ Using SageMaker execution role: " ++ role),
         Event.consoleOut "📦 Deploying model to SageMaker serverless endpoint...",
         Event.consoleOut "⏳ This may take 5-10 minutes...",
         Event.deployCall cfg "travel-assistant-endpoint" sc travel_tags]
      match sm.deployResult cfg "travel-assistant-endpoint" sc travel_tags with
      | Except.error e =>
          (t1 ++ [Event.consoleOut ("❌ Deployment failed: " ++ e)], none)
      | Except.ok p =>
          (t1 ++ [Event.consoleOut "✅ Model deployed successfully!",
            Event.consoleOut ("🔗 Endpoint name: " ++ p.endpoint_name)] ++
           test_model sm p, some p.endpoint_name)

/-- The distinct message printed when a describe raises a `ClientError` whose
text contains `ValidationException` (the missing-endpoint signal). -/
def not_found_msg (endpoint_name : String) : String :=
  "❌ Endpoint " ++ sglq ++ endpoint_name ++ sglq ++ " not found"

/-- The generic message printed for any other `ClientError` from describe. -/
def generic_error_msg (e : String) : String :=
  "❌ Error checking endpoint: " ++ e

/-- Embedding of `check_endpoint_status` (script 2): describe the endpoint and
return its reported status; on a `ClientError`, print the distinct not-found
message when the error text contains `ValidationException`, else the generic
message, and return `None` either way.  The handler catches only
`client.exceptions.ClientError`, so a describe failure that is not a
`ClientError` propagates past the function boundary (`Except.error`) without
any diagnostic. -/
def check_endpoint_status (sm : SageMakerBehavior) (endpoint_name : String) :
    List Event × Except String (Option String) :=
  let t0 := [Event.describeEndpointCall endpoint_name]
  match sm.describeEndpointResult endpoint_name with
  | DescribeOutcome.ok status =>
      let more :=
        if status = "InService" then
          [Event.consoleOut "✅ Endpoint is ready for inference!"]
        else if status = "Creating" || status = "Updating" then
          [Event.consoleOut "⏳ Endpoint is being deployed..."]
        else
          [Event.consoleOut ("⚠️ Endpoint status: " ++ status)]
      (t0 ++ [Event.consoleOut ("📊 Endpoint " ++ sglq ++ endpoint_name
        ++ sglq ++ " status: " ++ status)] ++ more, Except.ok (some status))
  | DescribeOutcome.clientError e =>
      if strOccurs "ValidationException" e then
        (t0 ++ [Event.consoleOut (not_found_msg endpoint_name)], Except.ok none)
      else
        (t0 ++ [Event.consoleOut (generic_error_msg e)], Except.ok none)
  | DescribeOutcome.failure e => (t0, Except.error e)

/-- Embedding of `cleanup_endpoint` (script 2): same shape as script 1's
`delete_endpoint` with different console text; a failing config delete is
swallowed by `except: pass`. -/
def cleanup_endpoint (sm : SageMakerBehavior) (endpoint_name : String) :
    List Event × Except String Unit :=
  let t0 := [Event.consoleOut ("🗑️ Deleting endpoint: " ++ endpoint_name),
    Event.deleteEndpointCall endpoint_name]
  match sm.deleteEndpointResult endpoint_name with
  | Except.error e =>
      (t0 ++ [Event.consoleOut ("❌ Error deleting endpoint: " ++ e)],
       Except.ok ())
  | Except.ok _ =>
      let t1 := t0 ++ [Event.consoleOut "✅ Endpoint deletion initiated",
        Event.deleteEndpointConfigCall endpoint_name]
      match sm.deleteEndpointConfigResult endpoint_name with
      | Except.error _ => (t1, Except.ok ())
      | Except.ok _ =>
          (t1 ++ [Event.consoleOut "✅ Endpoint configuration deleted"],
           Except.ok ())

/-- The parsed arguments of script 2 (`--action` with choices
deploy/status/test/cleanup defaulting to deploy, `--endpoint` defaulting to
travel-assistant-endpoint). -/
structure MainArgs where
  action : String
  endpoint : String
deriving DecidableEq, Repr

/-- Embedding of script 2's `main`: dispatch on the action.  On `deploy`, the
completion banner and the `.env` suggestion are printed only when the returned
endpoint name is truthy (non-`None` and non-empty). -/
def main (sm : SageMakerBehavior) (args : MainArgs) : List Event :=
  if args.action = "deploy" then
    match deploy_travel_model sm with
    | (tr, some endpoint_name) =>
        if endpoint_name ≠ "" then
          tr ++ [Event.consoleOut "\n🎉 Deployment complete!",
            Event.consoleOut ("📝 Update your .env file with: SAGEMAKER_ENDPOINT_NAME="
              ++ endpoint_name)]
        else tr
    | (tr, none) => tr
  else if args.action = "status" then
    (check_endpoint_status sm args.endpoint).1
  else if args.action = "test" then
    test_model sm { endpoint_name := args.endpoint }
  else if args.action = "cleanup" then
    (cleanup_endpoint sm args.endpoint).1
  else []

end ScriptsDeploySagemaker

/-- Recognise a create-role call in a trace. -/
def isCreateRoleCall : Event → Bool
  | Event.createRole _ _ _ => true
  | _ => false

/-- Recognise an attach-role-policy call in a trace. -/
def isAttachPolicyCall : Event → Bool
  | Event.attachRolePolicy _ _ => true
  | _ => false

/-- Recognise a deploy call in a trace. -/
def isDeployCall : Event → Bool
  | Event.deployCall _ _ _ _ => true
  | _ => false

/-- Recognise an inference (predict) call in a trace. -/
def isPredictCall : Event → Bool
  | Event.predictCall _ _ => true
  | _ => false

/-- The hosting configurations of all deploy calls in a trace, in order. -/
def hostingConfigsOf (t : List Event) : List HostingConfig :=
  t.filterMap fun e => match e with
    | Event.deployCall _ _ c _ => some c
    | _ => none

/-- The (endpoint, payload) pairs of all predict calls in a trace, in order. -/
def predictCallsOf (t : List Event) : List (String × Payload) :=
  t.filterMap fun e => match e with
    | Event.predictCall ep p => some (ep, p)
    | _ => none

/-- A provider on which every call succeeds: the execution role exists, deploys
return a predictor for the requested endpoint, predictions answer, describes
report `InService`, and deletes succeed. -/
def smOk : SageMakerBehavior :=
  { deployResult := fun _ ep _ _ => Except.ok { endpoint_name := ep }
    predictResult := fun _ _ =>
      Except.ok [[("generated_text", "Happy to help you plan that trip!")]]
    listEndpointsResult := Except.ok []
    describeEndpointResult := fun _ => DescribeOutcome.ok "InService"
    deleteEndpointResult := fun _ => Except.ok ()
    deleteEndpointConfigResult := fun _ => Except.ok ()
    getExecutionRoleResult :=
      Except.ok "arn:aws:iam::123456789012:role/SageMakerRole"
    region_name := "us-east-1" }

/-- IAM behaviour where the fixed role already exists. -/
def iamFound : IAMBehavior :=
  { getRoleResult := fun _ => GetRoleOutcome.found
      "arn:aws:iam::123456789012:role/SageMakerTravelAssistantRole"
    createRoleResult := fun _ _ _ => Except.ok
      "arn:aws:iam::123456789012:role/SageMakerTravelAssistantRole"
    attachRolePolicyResult := fun _ _ => Except.ok () }

/-- IAM behaviour where the lookup signals `NoSuchEntityException` and the
create/attach calls succeed. -/
def iamMissing : IAMBehavior :=
  { getRoleResult := fun _ => GetRoleOutcome.noSuchEntity
    createRoleResult := fun _ _ _ => Except.ok
      "arn:aws:iam::123456789012:role/SageMakerTravelAssistantRole"
    attachRolePolicyResult := fun _ _ => Except.ok () }

/-- IAM behaviour where the lookup fails with a non-missing error. -/
def iamFailure : IAMBehavior :=
  { getRoleResult := fun _ => GetRoleOutcome.failure "AccessDenied"
    createRoleResult := fun _ _ _ => Except.error "AccessDenied"
    attachRolePolicyResult := fun _ _ => Except.error "AccessDenied" }

/-- Provider where deleting the endpoint itself raises. -/
def smDeleteFails : SageMakerBehavior :=
  { smOk with deleteEndpointResult := fun _ =>
      Except.error "An error occurred (ValidationException): endpoint not found" }

/-- Provider where the endpoint delete succeeds but the config delete raises. -/
def smConfigDeleteFails : SageMakerBehavior :=
  { smOk with deleteEndpointConfigResult := fun _ =>
      Except.error "An error occurred (ValidationException): config not found" }

/-- The rendered `ClientError` text AWS produces for a describe of a missing
endpoint. -/
def missingEndpointErr : String :=
  "An error occurred (ValidationException) when calling the DescribeEndpoint operation: Could not find endpoint"

/-- A rendered `ClientError` text for a throttled describe call. -/
def throttledErr : String :=
  "An error occurred (ThrottlingException) when calling the DescribeEndpoint operation: Rate exceeded"

/-- Provider whose describe raises the missing-endpoint `ClientError`. -/
def smDescribeMissing : SageMakerBehavior :=
  { smOk with describeEndpointResult := fun _ => DescribeOutcome.clientError missingEndpointErr }

/-- Provider whose describe raises some other `ClientError`. -/
def smDescribeThrottled : SageMakerBehavior :=
  { smOk with describeEndpointResult := fun _ => DescribeOutcome.clientError throttledErr }

/-- Provider where the deploy call raises. -/
def smDeployFails : SageMakerBehavior :=
  { smOk with deployResult := fun _ _ _ _ =>
      Except.error "ResourceLimitExceeded" }

/-- Provider where `sagemaker.get_execution_role()` raises (script 2). -/
def smRoleFails : SageMakerBehavior :=
  { smOk with getExecutionRoleResult :=
      Except.error "The current AWS identity is not a role" }

/-- Provider where only the second smoke-test prompt's inference raises. -/
def smSecondPredictFails : SageMakerBehavior :=
  { smOk with predictResult := fun _ payload =>
      if payload = ScriptsDeploySagemaker.test_payload_for "What are the best travel tips for Japan?" then
        Except.error "ModelError"
      else
        Except.ok [[("generated_text", "Happy to help you plan that trip!")]] }

/-- A concrete parse of `--serverless` (script 1, argparse defaults
otherwise). -/
def argsServerless : DeploySagemakerModel.Args :=
  { instance_type := "ml.t2.medium"
    endpoint_name := "travel-assistant-endpoint"
    serverless := true
    list := false
    delete := none }

/-- A concrete parse of the default invocation of script 1. -/
def argsDefault : DeploySagemakerModel.Args :=
  { instance_type := "ml.t2.medium"
    endpoint_name := "travel-assistant-endpoint"
    serverless := false
    list := false
    delete := none }

/-- Provider on which the lifecycle-admin and role calls all fail: list and
delete raise, describe raises a (non-Validation) `ClientError`, and
`sagemaker.get_execution_role()` raises. -/
def smAdminFails : SageMakerBehavior :=
  { smOk with
    listEndpointsResult := Except.error "ExpiredTokenException"
    deleteEndpointResult := fun _ => Except.error "AccessDeniedException"
    describeEndpointResult := fun _ => DescribeOutcome.clientError throttledErr
    getExecutionRoleResult := Except.error "NoCredentialsError" }

/-- Provider whose describe raises an exception that is not a `ClientError`
(the SDK's connection failure). -/
def smDescribeConnFails : SageMakerBehavior :=
  { smOk with describeEndpointResult := fun _ =>
      DescribeOutcome.failure "Could not connect to the endpoint URL" }

open DeploySagemakerModel ScriptsDeploySagemaker

/-- C1: whenever the role lookup signals `NoSuchEntityException`,
`get_execution_role` issues exactly one create-role call, whose trust policy
names the principal `sagemaker.amazonaws.com`; when the create call succeeds
it attaches the managed policy
`arn:aws:iam::aws:policy/AmazonSageMakerFullAccess` exactly once, and when the
attach also succeeds it pauses for the fixed 10 seconds and returns the
created role's ARN. -/
theorem C1_create_role_path (iam : IAMBehavior)
    (hmiss : iam.getRoleResult role_name = GetRoleOutcome.noSuchEntity) :
    (get_execution_role iam).1.countP isCreateRoleCall = 1
    ∧ Event.createRole role_name trust_policy role_description ∈
        (get_execution_role iam).1
    ∧ trust_policy.principalService = "sagemaker.amazonaws.com"
    ∧ (∀ arn,
        iam.createRoleResult role_name trust_policy role_description =
          Except.ok arn →
        (get_execution_role iam).1.countP isAttachPolicyCall = 1
        ∧ Event.attachRolePolicy role_name sagemaker_full_access ∈
            (get_execution_role iam).1
        ∧ sagemaker_full_access = "arn:aws:iam::aws:policy/AmazonSageMakerFullAccess"
        ∧ (iam.attachRolePolicyResult role_name sagemaker_full_access =
              Except.ok () →
            Event.sleep 10 ∈ (get_execution_role iam).1
            ∧ (get_execution_role iam).2 = Except.ok arn)) := by
  cases hc : iam.createRoleResult role_name trust_policy role_description with
  | error e =>
      refine ⟨?_, ?_, rfl, ?_⟩
      · simp [get_execution_role, hmiss, hc, iam_error_prints, isCreateRoleCall,
          List.countP_append, List.countP_cons]
      · simp [get_execution_role, hmiss, hc, iam_error_prints]
      · intro arn h
        exact absurd h (by simp)
  | ok arn0 =>
      cases ha : iam.attachRolePolicyResult role_name sagemaker_full_access with
      | error e =>
          refine ⟨?_, ?_, rfl, ?_⟩
          · simp [get_execution_role, hmiss, hc, ha, iam_error_prints,
              isCreateRoleCall, List.countP_append, List.countP_cons]
          · simp [get_execution_role, hmiss, hc, ha, iam_error_prints]
          · intro arn h
            refine ⟨?_, ?_, rfl, ?_⟩
            · simp [get_execution_role, hmiss, hc, ha, iam_error_prints,
                isAttachPolicyCall, List.countP_append, List.countP_cons]
            · simp [get_execution_role, hmiss, hc, ha, iam_error_prints]
            · intro h2
              exact absurd h2 (by simp)
      | ok u =>
          refine ⟨?_, ?_, rfl, ?_⟩
          · simp [get_execution_role, hmiss, hc, ha, isCreateRoleCall,
              List.countP_append, List.countP_cons]
          · simp [get_execution_role, hmiss, hc, ha]
          · intro arn h
            injection h with h
            subst h
            refine ⟨?_, ?_, rfl, ?_⟩
            · simp [get_execution_role, hmiss, hc, ha, isAttachPolicyCall,
                List.countP_append, List.countP_cons]
            · simp [get_execution_role, hmiss, hc, ha]
            · intro _
              constructor
              · simp [get_execution_role, hmiss, hc, ha]
              · simp [get_execution_role, hmiss, hc, ha]

/-- Witness for C1: on the concrete provider whose lookup reports the role
missing and whose create/attach succeed, the create path runs as claimed. -/
theorem C1_create_role_path_witness :
    (get_execution_role iamMissing).1.countP isCreateRoleCall = 1
    ∧ Event.sleep 10 ∈ (get_execution_role iamMissing).1
    ∧ (get_execution_role iamMissing).2 =
        Except.ok "arn:aws:iam::123456789012:role/SageMakerTravelAssistantRole" := by
  have h := C1_create_role_path iamMissing rfl
  have h2 := (h.2.2.2 "arn:aws:iam::123456789012:role/SageMakerTravelAssistantRole" rfl).2.2.2 rfl
  exact ⟨h.1, h2.1, h2.2⟩

/-- C6: whenever the role lookup succeeds, `get_execution_role` issues no
create-role and no attach-policy call — indeed its whole trace is the single
lookup plus one console line, so no state-changing IAM call at all — and it
returns the existing role's ARN unchanged. -/
theorem C6_idempotent_reuse (iam : IAMBehavior) (arn : String)
    (hfound : iam.getRoleResult role_name = GetRoleOutcome.found arn) :
    (get_execution_role iam).1.countP isCreateRoleCall = 0
    ∧ (get_execution_role iam).1.countP isAttachPolicyCall = 0
    ∧ (get_execution_role iam).1 =
        [Event.getRole role_name,
         Event.consoleOut ("✓ Using existing role: " ++ arn)]
    ∧ (get_execution_role iam).2 = Except.ok arn := by
  refine ⟨?_, ?_, ?_, ?_⟩ <;>
    simp [get_execution_role, hfound, isCreateRoleCall, isAttachPolicyCall,
      List.countP_cons]

/-- Witness for C6 on the concrete provider whose lookup finds the role. -/
theorem C6_idempotent_reuse_witness :
    (get_execution_role iamFound).1.countP isCreateRoleCall = 0
    ∧ (get_execution_role iamFound).2 =
        Except.ok "arn:aws:iam::123456789012:role/SageMakerTravelAssistantRole" := by
  have h := C6_idempotent_reuse iamFound
    "arn:aws:iam::123456789012:role/SageMakerTravelAssistantRole" rfl
  exact ⟨h.1, h.2.2.2⟩

/-- The role resolver issues no deploy call and no predict call (its trace
holds only IAM calls, the sleep, and console lines). -/
theorem get_execution_role_no_sm_calls (iam : IAMBehavior) :
    (∀ m ep c tg, Event.deployCall m ep c tg ∉ (get_execution_role iam).1)
    ∧ (∀ ep pl, Event.predictCall ep pl ∉ (get_execution_role iam).1) := by
  cases hg : iam.getRoleResult role_name with
  | noSuchEntity =>
      cases hc : iam.createRoleResult role_name trust_policy role_description with
      | ok arn =>
          cases ha : iam.attachRolePolicyResult role_name sagemaker_full_access with
          | ok u =>
              constructor <;>
                simp [get_execution_role, hg, hc, ha, iam_error_prints]
          | error e =>
              constructor <;>
                simp [get_execution_role, hg, hc, ha, iam_error_prints]
      | error e =>
          constructor <;> simp [get_execution_role, hg, hc, iam_error_prints]
  | found arn =>
      constructor <;> simp [get_execution_role, hg]
  | failure e =>
      constructor <;> simp [get_execution_role, hg, iam_error_prints]

/-- Every deploy call issued by `deploy_model` is for the requested endpoint
and carries the dedicated-instance hosting variant with the requested type and
an initial instance count of 1 (and no tags). -/
theorem deploy_model_deploy_calls (iam : IAMBehavior) (sm : SageMakerBehavior)
    (instance_type endpoint_name : String) :
    ∀ m ep c tg,
      Event.deployCall m ep c tg ∈ (deploy_model iam sm instance_type endpoint_name).1 →
      ep = endpoint_name ∧ c = HostingConfig.instanceBased instance_type 1 ∧ tg = [] := by
  rcases hr : get_execution_role iam with ⟨tr, r⟩
  have htr := (get_execution_role_no_sm_calls iam).1
  rw [hr] at htr
  intro m ep c tg hmem
  cases r with
  | error e =>
      simp [deploy_model, hr, htr] at hmem
  | ok role =>
      cases hd : sm.deployResult (model_cfg role) endpoint_name
          (HostingConfig.instanceBased instance_type 1) [] with
      | error e =>
          simp [deploy_model, hr, hd, htr, troubleshooting] at hmem
          exact ⟨hmem.2.1, hmem.2.2.1, hmem.2.2.2⟩
      | ok p =>
          cases hp : sm.predictResult p.endpoint_name test_payload with
          | error e =>
              simp [deploy_model, hr, hd, hp, htr, troubleshooting] at hmem
              exact ⟨hmem.2.1, hmem.2.2.1, hmem.2.2.2⟩
          | ok resp =>
              simp [deploy_model, hr, hd, hp, htr] at hmem
              exact ⟨hmem.2.1, hmem.2.2.1, hmem.2.2.2⟩

/-- Every deploy call issued by `deploy_serverless` is for the requested
endpoint and carries the serverless hosting variant with 4096 MB memory and
max concurrency 10 (and no tags). -/
theorem deploy_serverless_deploy_calls (iam : IAMBehavior)
    (sm : SageMakerBehavior) (endpoint_name : String) :
    ∀ m ep c tg,
      Event.deployCall m ep c tg ∈ (deploy_serverless iam sm endpoint_name).1 →
      ep = endpoint_name ∧ c = HostingConfig.serverless 4096 10 ∧ tg = [] := by
  rcases hr : get_execution_role iam with ⟨tr, r⟩
  have htr := (get_execution_role_no_sm_calls iam).1
  rw [hr] at htr
  intro m ep c tg hmem
  cases r with
  | error e =>
      simp [deploy_serverless, hr, htr] at hmem
  | ok role =>
      cases hd : sm.deployResult (serverless_model_cfg role) endpoint_name
          (HostingConfig.serverless 4096 10) [] with
      | error e =>
          simp [deploy_serverless, hr, hd, htr] at hmem
          exact ⟨hmem.2.1, hmem.2.2.1, hmem.2.2.2⟩
      | ok p =>
          simp [deploy_serverless, hr, hd, htr] at hmem
          exact ⟨hmem.2.1, hmem.2.2.1, hmem.2.2.2⟩

/-- C2: on script 1's dispatch with neither `--list` nor `--delete`, a
`--serverless` invocation only ever hands the deploy call the serverless
(memory-size/max-concurrency) hosting variant, and a default invocation only
ever hands it the dedicated-instance (type/count) variant — the two variants
being mutually exclusive constructors of the hosting configuration, so neither
path ever passes the other variant's arguments. -/
theorem C2_hosting_variant (iam : IAMBehavior) (sm : SageMakerBehavior)
    (args : Args) (hlist : args.list = false)
    (hdel : optTruthy args.delete = false) :
    (args.serverless = true →
      ∀ m ep c tg, Event.deployCall m ep c tg ∈ (main_dispatch iam sm args).1 →
        c = HostingConfig.serverless 4096 10)
    ∧ (args.serverless = false →
      ∀ m ep c tg, Event.deployCall m ep c tg ∈ (main_dispatch iam sm args).1 →
        c = HostingConfig.instanceBased args.instance_type 1) := by
  constructor
  · intro hs m ep c tg hc
    rw [main_dispatch, hlist, hdel] at hc
    simp only [Bool.false_eq_true, if_false, hs, if_true] at hc
    exact (deploy_serverless_deploy_calls iam sm args.endpoint_name m ep c tg hc).2.1
  · intro hs m ep c tg hc
    rw [main_dispatch, hlist, hdel, hs] at hc
    simp only [Bool.false_eq_true, if_false] at hc
    exact (deploy_model_deploy_calls iam sm args.instance_type args.endpoint_name
      m ep c tg hc).2.1

/-- Witness for C2 at concrete serverless and default invocations against the
all-success provider (where a deploy call is in fact issued). -/
theorem C2_hosting_variant_witness :
    (∀ m ep c tg,
      Event.deployCall m ep c tg ∈ (main_dispatch iamFound smOk argsServerless).1 →
        c = HostingConfig.serverless 4096 10)
    ∧ (∀ m ep c tg,
      Event.deployCall m ep c tg ∈ (main_dispatch iamFound smOk argsDefault).1 →
        c = HostingConfig.instanceBased "ml.t2.medium" 1) :=
  ⟨(C2_hosting_variant iamFound smOk argsServerless rfl rfl).1 rfl,
   (C2_hosting_variant iamFound smOk argsDefault rfl rfl).2 rfl⟩

/-- C3 counterexample: on a provider whose endpoint-delete call raises, both
delete operations issue the delete-endpoint request but never attempt the
same-named config delete — the broad outer catch skips it — refuting the
claim's "always". -/
theorem C3_counterexample :
    Event.deleteEndpointCall "travel-assistant-endpoint" ∈
      (delete_endpoint smDeleteFails "travel-assistant-endpoint").1
    ∧ Event.deleteEndpointConfigCall "travel-assistant-endpoint" ∉
      (delete_endpoint smDeleteFails "travel-assistant-endpoint").1
    ∧ Event.deleteEndpointCall "travel-assistant-endpoint" ∈
      (cleanup_endpoint smDeleteFails "travel-assistant-endpoint").1
    ∧ Event.deleteEndpointConfigCall "travel-assistant-endpoint" ∉
      (cleanup_endpoint smDeleteFails "travel-assistant-endpoint").1 := by
  refine ⟨?_, ?_, ?_, ?_⟩ <;>
    simp [delete_endpoint, cleanup_endpoint, smDeleteFails, smOk]

/-- C3 (amended): whenever the endpoint-delete request itself succeeds, both
`delete_endpoint` and `cleanup_endpoint` go on to attempt deletion of the
same-named endpoint configuration, and neither function ever raises past its
boundary — in particular a failure of that second delete is swallowed. -/
theorem C3_amended_config_delete (sm : SageMakerBehavior)
    (endpoint_name : String)
    (h : sm.deleteEndpointResult endpoint_name = Except.ok ()) :
    (Event.deleteEndpointConfigCall endpoint_name ∈
        (delete_endpoint sm endpoint_name).1
      ∧ (delete_endpoint sm endpoint_name).2 = Except.ok ())
    ∧ (Event.deleteEndpointConfigCall endpoint_name ∈
        (cleanup_endpoint sm endpoint_name).1
      ∧ (cleanup_endpoint sm endpoint_name).2 = Except.ok ()) := by
  cases hc : sm.deleteEndpointConfigResult endpoint_name with
  | error e =>
      refine ⟨⟨?_, ?_⟩, ?_, ?_⟩ <;>
        simp [delete_endpoint, cleanup_endpoint, h, hc]
  | ok u =>
      refine ⟨⟨?_, ?_⟩, ?_, ?_⟩ <;>
        simp [delete_endpoint, cleanup_endpoint, h, hc]

/-- Witness for the amended C3: with a successful endpoint delete but a
failing config delete, the config delete is attempted and nothing raises. -/
theorem C3_amended_config_delete_witness :
    Event.deleteEndpointConfigCall "travel-assistant-endpoint" ∈
      (delete_endpoint smConfigDeleteFails "travel-assistant-endpoint").1
    ∧ (delete_endpoint smConfigDeleteFails "travel-assistant-endpoint").2 =
        Except.ok ()
    ∧ (cleanup_endpoint smConfigDeleteFails "travel-assistant-endpoint").2 =
        Except.ok () := by
  have h := C3_amended_config_delete smConfigDeleteFails
    "travel-assistant-endpoint" rfl
  exact ⟨h.1.1, h.1.2, h.2.2⟩

/-- C4: deploying with endpoint name `demo-ep` when the execution role exists
builds the descriptor with model id `facebook/blenderbot-400M-distill`, issues
exactly one deploy call with endpoint `demo-ep`, instance type `ml.t2.medium`
and initial instance count 1, and after the deploy call succeeds (the SDK
reports the endpoint in service) the smoke test sends exactly one inference
payload whose body is `Hello! I want to plan a trip to Japan.`. -/
theorem C4_demo_scenario (iam : IAMBehavior) (sm : SageMakerBehavior)
    (arn : String) (p : Predictor) (resp : List (List (String × String)))
    (hrole : iam.getRoleResult role_name = GetRoleOutcome.found arn)
    (hdeploy : sm.deployResult (model_cfg arn) "demo-ep"
        (HostingConfig.instanceBased "ml.t2.medium" 1) [] = Except.ok p)
    (hpredict : sm.predictResult p.endpoint_name test_payload = Except.ok resp) :
    (model_cfg arn).model_data.lookup "HF_MODEL_ID" =
        some "facebook/blenderbot-400M-distill"
    ∧ Event.deployCall (model_cfg arn) "demo-ep"
        (HostingConfig.instanceBased "ml.t2.medium" 1) [] ∈
        (deploy_model iam sm "ml.t2.medium" "demo-ep").1
    ∧ (deploy_model iam sm "ml.t2.medium" "demo-ep").1.countP isDeployCall = 1
    ∧ Event.predictCall p.endpoint_name test_payload ∈
        (deploy_model iam sm "ml.t2.medium" "demo-ep").1
    ∧ (deploy_model iam sm "ml.t2.medium" "demo-ep").1.countP isPredictCall = 1
    ∧ test_payload.inputs = "Hello! I want to plan a trip to Japan." := by
  refine ⟨rfl, ?_, ?_, ?_, ?_, rfl⟩ <;>
    simp [deploy_model, get_execution_role, hrole, hdeploy, hpredict,
      isDeployCall, isPredictCall, List.countP_cons, List.countP_append]

/-- Witness for C4 on the all-success provider with the role present. -/
theorem C4_demo_scenario_witness :
    (deploy_model iamFound smOk "ml.t2.medium" "demo-ep").1.countP isDeployCall = 1
    ∧ (deploy_model iamFound smOk "ml.t2.medium" "demo-ep").1.countP isPredictCall = 1
    ∧ Event.predictCall "demo-ep" test_payload ∈
        (deploy_model iamFound smOk "ml.t2.medium" "demo-ep").1 := by
  have h := C4_demo_scenario iamFound smOk
    "arn:aws:iam::123456789012:role/SageMakerTravelAssistantRole"
    { endpoint_name := "demo-ep" }
    [[("generated_text", "Happy to help you plan that trip!")]] rfl rfl rfl
  exact ⟨h.2.2.1, h.2.2.2.2.1, h.2.2.2.1⟩

/-- The distinct not-found line can never coincide with the generic
describe-error line, whatever the endpoint name and error text. -/
theorem not_found_ne_generic (name e : String) :
    not_found_msg name ≠ generic_error_msg e := by
  intro h
  have h3 := congrArg (fun s => s.data[3]?) h
  simp only [not_found_msg, generic_error_msg, String.data_append,
    List.append_assoc] at h3
  rw [List.getElem?_append_left (by decide),
    List.getElem?_append_left (by decide)] at h3
  exact absurd h3 (by decide)

/-- C5: a status query whose describe raises the missing-endpoint
`ClientError` (rendered text containing `ValidationException`) prints the
distinct not-found line, any other `ClientError` prints the generic line, and
the two lines can never coincide. -/
theorem C5_status_not_found (sm : SageMakerBehavior) (endpoint_name e : String)
    (herr : sm.describeEndpointResult endpoint_name =
      DescribeOutcome.clientError e) :
    (strOccurs "ValidationException" e = true →
      (check_endpoint_status sm endpoint_name).1 =
        [Event.describeEndpointCall endpoint_name,
         Event.consoleOut (not_found_msg endpoint_name)])
    ∧ (strOccurs "ValidationException" e = false →
      (check_endpoint_status sm endpoint_name).1 =
        [Event.describeEndpointCall endpoint_name,
         Event.consoleOut (generic_error_msg e)])
    ∧ (∀ name e2, not_found_msg name ≠ generic_error_msg e2) := by
  refine ⟨?_, ?_, not_found_ne_generic⟩
  · intro hocc
    simp [check_endpoint_status, herr, hocc]
  · intro hocc
    simp [check_endpoint_status, herr, hocc]

/-- Witness for C5 at a concrete missing-endpoint describe error. -/
theorem C5_status_not_found_witness :
    (check_endpoint_status smDescribeMissing "travel-assistant-endpoint").1 =
      [Event.describeEndpointCall "travel-assistant-endpoint",
       Event.consoleOut (not_found_msg "travel-assistant-endpoint")]
    ∧ not_found_msg "travel-assistant-endpoint" ≠
        generic_error_msg missingEndpointErr := by
  have h := C5_status_not_found smDescribeMissing "travel-assistant-endpoint"
    missingEndpointErr rfl
  exact ⟨h.1 (by decide), h.2.2 "travel-assistant-endpoint" missingEndpointErr⟩

/-- C9: `check_endpoint_status` returns the provider-reported status string
whenever the describe succeeds, and returns `None` whenever the describe
raises a `ClientError` — missing endpoint or otherwise — absorbing any such
error (`Except.ok`, never `Except.error`) rather than propagating it. -/
theorem C9_status_result (sm : SageMakerBehavior) (endpoint_name : String) :
    (∀ status, sm.describeEndpointResult endpoint_name =
        DescribeOutcome.ok status →
      (check_endpoint_status sm endpoint_name).2 = Except.ok (some status))
    ∧ (∀ e, sm.describeEndpointResult endpoint_name =
        DescribeOutcome.clientError e →
      (check_endpoint_status sm endpoint_name).2 = Except.ok none) := by
  constructor
  · intro status h
    by_cases h1 : status = "InService"
    · simp [check_endpoint_status, h, h1]
    · by_cases h2 : status = "Creating" || status = "Updating"
      · simp [check_endpoint_status, h, h1, h2]
      · simp [check_endpoint_status, h, h1, h2]
  · intro e h
    cases hv : strOccurs "ValidationException" e <;>
      simp [check_endpoint_status, h, hv]

/-- Witness for C9 at a succeeding describe and a throttled describe. -/
theorem C9_status_result_witness :
    (check_endpoint_status smOk "travel-assistant-endpoint").2 =
        Except.ok (some "InService")
    ∧ (check_endpoint_status smDescribeThrottled "travel-assistant-endpoint").2 =
        Except.ok none :=
  ⟨(C9_status_result smOk "travel-assistant-endpoint").1 "InService" rfl,
   (C9_status_result smDescribeThrottled "travel-assistant-endpoint").2
     throttledErr rfl⟩

/-- Each iteration of the smoke-test loop issues exactly one predict call,
carrying the prefixed prompt and the generation parameters, whatever the
provider answers. -/
theorem test_one_predict_calls (sm : SageMakerBehavior) (p : Predictor)
    (i : Nat) (q : String) :
    (test_one sm p i q).filter isPredictCall =
      [Event.predictCall p.endpoint_name (test_payload_for q)] := by
  cases hp : sm.predictResult p.endpoint_name (test_payload_for q) with
  | error e => simp [test_one, hp, isPredictCall]
  | ok resp =>
      cases resp with
      | nil => simp [test_one, hp, isPredictCall]
      | cons first rest => simp [test_one, hp, isPredictCall]

/-- Anything an iteration of the smoke-test loop emits is in the full
`test_model` trace. -/
theorem mem_test_model_of (sm : SageMakerBehavior) (p : Predictor)
    (i : Nat) (q : String) (h : (i, q) ∈ test_queries.enumFrom 1)
    (x : Event) (hx : x ∈ test_one sm p i q) : x ∈ test_model sm p := by
  simp only [test_model, List.mem_append, List.mem_cons]
  right
  exact List.mem_flatMap.mpr ⟨(i, q), h, hx⟩

/-- C7: the smoke tester sends exactly one inference request per fixed prompt,
in order, each carrying the generation parameters; a failing prompt (an
exception from its request) is caught and reported by its own console line
without suppressing the other prompts' requests, and a successful prompt's
response is printed truncated to its first 200 characters. -/
theorem C7_smoke_test (sm : SageMakerBehavior) (p : Predictor) :
    (test_model sm p).filter isPredictCall =
      test_queries.map (fun q => Event.predictCall p.endpoint_name (test_payload_for q))
    ∧ (∀ q, (test_payload_for q).parameters = some test_gen_params)
    ∧ (∀ i q e, (i, q) ∈ test_queries.enumFrom 1 →
        sm.predictResult p.endpoint_name (test_payload_for q) = Except.error e →
        Event.consoleOut ("❌ Test " ++ toString i ++ " failed: " ++ e) ∈
          test_model sm p)
    ∧ (∀ i q first rest, (i, q) ∈ test_queries.enumFrom 1 →
        sm.predictResult p.endpoint_name (test_payload_for q) =
          Except.ok (first :: rest) →
        Event.consoleOut ("✅ Response: "
            ++ ((first.lookup "generated_text").getD "No response").take 200
            ++ "...") ∈ test_model sm p) := by
  refine ⟨?_, fun q => rfl, ?_, ?_⟩
  · simp [test_model, test_queries, List.enumFrom, List.filter_append,
      test_one_predict_calls, isPredictCall]
  · intro i q e hmem hp
    exact mem_test_model_of sm p i q hmem _ (by simp [test_one, hp])
  · intro i q first rest hmem hp
    exact mem_test_model_of sm p i q hmem _ (by simp [test_one, hp])

/-- Witness for C7 on a provider failing exactly the second prompt: all three
requests are still sent and the second failure is reported on its own line. -/
theorem C7_smoke_test_witness :
    (test_model smSecondPredictFails { endpoint_name := "travel-assistant-endpoint" }).filter
        isPredictCall =
      test_queries.map (fun q =>
        Event.predictCall "travel-assistant-endpoint" (test_payload_for q))
    ∧ Event.consoleOut ("❌ Test " ++ toString 2 ++ " failed: ModelError") ∈
        test_model smSecondPredictFails { endpoint_name := "travel-assistant-endpoint" } := by
  have h := C7_smoke_test smSecondPredictFails
    { endpoint_name := "travel-assistant-endpoint" }
  refine ⟨h.1, h.2.2.1 2 "What are the best travel tips for Japan?" "ModelError"
    (by simp [test_queries, List.enumFrom]) (by simp [smSecondPredictFails])⟩

/-- `deploy_model` returns normally on every provider behaviour. -/
theorem deploy_model_returns (iam : IAMBehavior) (sm : SageMakerBehavior)
    (instance_type endpoint_name : String) :
    (deploy_model iam sm instance_type endpoint_name).2 = Except.ok () := by
  rcases hr : get_execution_role iam with ⟨tr, r⟩
  cases r with
  | error e => simp [deploy_model, hr]
  | ok role =>
      cases hd : sm.deployResult (model_cfg role) endpoint_name
          (HostingConfig.instanceBased instance_type 1) [] with
      | error e => simp [deploy_model, hr, hd]
      | ok p =>
          cases hp : sm.predictResult p.endpoint_name test_payload with
          | error e => simp [deploy_model, hr, hd, hp]
          | ok resp => simp [deploy_model, hr, hd, hp]

/-- `deploy_serverless` returns normally on every provider behaviour. -/
theorem deploy_serverless_returns (iam : IAMBehavior) (sm : SageMakerBehavior)
    (endpoint_name : String) :
    (deploy_serverless iam sm endpoint_name).2 = Except.ok () := by
  rcases hr : get_execution_role iam with ⟨tr, r⟩
  cases r with
  | error e => simp [deploy_serverless, hr]
  | ok role =>
      cases hd : sm.deployResult (serverless_model_cfg role) endpoint_name
          (HostingConfig.serverless 4096 10) [] with
      | error e => simp [deploy_serverless, hr, hd]
      | ok p => simp [deploy_serverless, hr, hd]

/-- `list_endpoints` returns normally on every provider behaviour. -/
theorem list_endpoints_returns (sm : SageMakerBehavior) :
    (list_endpoints sm).2 = Except.ok () := by
  cases h : sm.listEndpointsResult with
  | error e => simp [list_endpoints, h]
  | ok eps => cases eps <;> simp [list_endpoints, h]

/-- `delete_endpoint` returns normally on every provider behaviour. -/
theorem delete_endpoint_returns (sm : SageMakerBehavior) (name : String) :
    (delete_endpoint sm name).2 = Except.ok () := by
  cases h : sm.deleteEndpointResult name with
  | error e => simp [delete_endpoint, h]
  | ok u =>
      cases hc : sm.deleteEndpointConfigResult name with
      | error e => simp [delete_endpoint, h, hc]
      | ok v => simp [delete_endpoint, h, hc]

/-- `cleanup_endpoint` returns normally on every provider behaviour. -/
theorem cleanup_endpoint_returns (sm : SageMakerBehavior) (name : String) :
    (cleanup_endpoint sm name).2 = Except.ok () := by
  cases h : sm.deleteEndpointResult name with
  | error e => simp [cleanup_endpoint, h]
  | ok u =>
      cases hc : sm.deleteEndpointConfigResult name with
      | error e => simp [cleanup_endpoint, h, hc]
      | ok v => simp [cleanup_endpoint, h, hc]

/-- C8 counterexample: the status operation's catch is `ClientError`-only, not
a broad catch, so a provider-call failure from its describe that is not a
`ClientError` (here the SDK's connection failure) is not absorbed: no
diagnostic line is printed and the exception re-raises past the function
boundary to the caller. -/
theorem C8_counterexample :
    (check_endpoint_status smDescribeConnFails "travel-assistant-endpoint").2 =
      Except.error "Could not connect to the endpoint URL"
    ∧ (check_endpoint_status smDescribeConnFails "travel-assistant-endpoint").1 =
      [Event.describeEndpointCall "travel-assistant-endpoint"] := by
  constructor <;> simp [check_endpoint_status, smDescribeConnFails, smOk]

/-- C8 (amended): every top-level operation other than status — script 1's
deploy, serverless deploy, list and delete with their dispatch, and script 2's
deploy and cleanup — absorbs any provider-call failure in a catch that prints
a diagnostic line and returns normally without re-raising; the status
operation does the same for every `ClientError` from its describe call
(printing the not-found or generic diagnostic and returning `None`), but its
catch is `ClientError`-only, so a describe failure that is not a `ClientError`
propagates to its caller. -/
theorem C8_amended_errors_absorbed (iam : IAMBehavior) (sm : SageMakerBehavior)
    (instance_type endpoint_name name : String) (args : Args) :
    (deploy_model iam sm instance_type endpoint_name).2 = Except.ok ()
    ∧ (deploy_serverless iam sm endpoint_name).2 = Except.ok ()
    ∧ (list_endpoints sm).2 = Except.ok ()
    ∧ (delete_endpoint sm name).2 = Except.ok ()
    ∧ (main_dispatch iam sm args).2 = Except.ok ()
    ∧ (∀ e, iam.getRoleResult role_name = GetRoleOutcome.failure e →
        Event.consoleOut ("❌ Failed to get execution role: " ++ e) ∈
          (deploy_model iam sm instance_type endpoint_name).1)
    ∧ (∀ e, sm.listEndpointsResult = Except.error e →
        Event.consoleOut ("Error listing endpoints: " ++ e) ∈
          (list_endpoints sm).1)
    ∧ (∀ e, sm.deleteEndpointResult name = Except.error e →
        Event.consoleOut ("Error deleting endpoint: " ++ e) ∈
          (delete_endpoint sm name).1)
    ∧ (cleanup_endpoint sm name).2 = Except.ok ()
    ∧ (∀ e, sm.deleteEndpointResult name = Except.error e →
        Event.consoleOut ("❌ Error deleting endpoint: " ++ e) ∈
          (cleanup_endpoint sm name).1)
    ∧ (∀ e, sm.getExecutionRoleResult = Except.error e →
        (deploy_travel_model sm).2 = none
        ∧ Event.consoleOut ("❌ Error getting SageMaker role: " ++ e) ∈
            (deploy_travel_model sm).1)
    ∧ (∀ role e, sm.getExecutionRoleResult = Except.ok role →
        sm.deployResult (travel_model_cfg role) "travel-assistant-endpoint"
          (HostingConfig.serverless 4096 10) travel_tags = Except.error e →
        Event.consoleOut ("❌ Deployment failed: " ++ e) ∈
          (deploy_travel_model sm).1)
    ∧ (∀ e, sm.describeEndpointResult endpoint_name =
        DescribeOutcome.clientError e →
        (check_endpoint_status sm endpoint_name).2 = Except.ok none
        ∧ (Event.consoleOut (not_found_msg endpoint_name) ∈
            (check_endpoint_status sm endpoint_name).1
          ∨ Event.consoleOut (generic_error_msg e) ∈
            (check_endpoint_status sm endpoint_name).1)) := by
  refine ⟨deploy_model_returns iam sm instance_type endpoint_name,
    deploy_serverless_returns iam sm endpoint_name,
    list_endpoints_returns sm,
    delete_endpoint_returns sm name, ?_, ?_, ?_, ?_,
    cleanup_endpoint_returns sm name, ?_, ?_, ?_, ?_⟩
  · by_cases hl : args.list = true
    · simp [main_dispatch, hl, list_endpoints_returns]
    · by_cases hd : optTruthy args.delete = true
      · simp [main_dispatch, hl, hd, delete_endpoint_returns]
      · by_cases hs : args.serverless = true
        · simp [main_dispatch, hl, hd, hs, deploy_serverless_returns]
        · simp [main_dispatch, hl, hd, hs, deploy_model_returns]
  · intro e h
    simp [deploy_model, get_execution_role, h, iam_error_prints]
  · intro e h
    simp [list_endpoints, h]
  · intro e h
    simp [delete_endpoint, h]
  · intro e h
    simp [cleanup_endpoint, h]
  · intro e h
    constructor
    · simp [deploy_travel_model, h]
    · simp [deploy_travel_model, h]
  · intro role e h hd
    simp [deploy_travel_model, h, hd]
  · intro e h
    cases hv : strOccurs "ValidationException" e with
    | true =>
        exact ⟨by simp [check_endpoint_status, h, hv],
          Or.inl (by simp [check_endpoint_status, h, hv])⟩
    | false =>
        exact ⟨by simp [check_endpoint_status, h, hv],
          Or.inr (by simp [check_endpoint_status, h, hv])⟩

/-- Witness for the amended C8 on providers whose role lookups, list, delete,
describe and deploy calls fail: every covered operation still returns
normally and prints its diagnostic, and the status operation absorbs the
`ClientError`. -/
theorem C8_amended_errors_absorbed_witness :
    (deploy_model iamFailure smAdminFails "ml.t2.medium" "travel-assistant-endpoint").2 =
        Except.ok ()
    ∧ Event.consoleOut ("❌ Failed to get execution role: " ++ "AccessDenied") ∈
        (deploy_model iamFailure smAdminFails "ml.t2.medium" "travel-assistant-endpoint").1
    ∧ Event.consoleOut ("Error listing endpoints: " ++ "ExpiredTokenException") ∈
        (list_endpoints smAdminFails).1
    ∧ Event.consoleOut ("Error deleting endpoint: " ++ "AccessDeniedException") ∈
        (delete_endpoint smAdminFails "travel-assistant-endpoint").1
    ∧ Event.consoleOut ("❌ Error deleting endpoint: " ++ "AccessDeniedException") ∈
        (cleanup_endpoint smAdminFails "travel-assistant-endpoint").1
    ∧ Event.consoleOut ("❌ Error getting SageMaker role: " ++ "NoCredentialsError") ∈
        (deploy_travel_model smAdminFails).1
    ∧ (check_endpoint_status smAdminFails "travel-assistant-endpoint").2 =
        Except.ok none
    ∧ Event.consoleOut ("❌ Deployment failed: " ++ "ResourceLimitExceeded") ∈
        (deploy_travel_model smDeployFails).1 := by
  have h1 := C8_amended_errors_absorbed iamFailure smAdminFails "ml.t2.medium"
    "travel-assistant-endpoint" "travel-assistant-endpoint" argsDefault
  have h2 := C8_amended_errors_absorbed iamFound smDeployFails "ml.t2.medium"
    "travel-assistant-endpoint" "travel-assistant-endpoint" argsDefault
  obtain ⟨a1, -, -, -, -, a6, a7, a8, -, a10, a11, -, a13⟩ := h1
  obtain ⟨-, -, -, -, -, -, -, -, -, -, -, b12, -⟩ := h2
  exact ⟨a1, a6 "AccessDenied" rfl, a7 "ExpiredTokenException" rfl,
    a8 "AccessDeniedException" rfl, a10 "AccessDeniedException" rfl,
    (a11 "NoCredentialsError" rfl).2, (a13 throttledErr rfl).1,
    b12 "arn:aws:iam::123456789012:role/SageMakerRole" "ResourceLimitExceeded"
      rfl rfl⟩
/-- C10: `deploy_travel_model` returns the deployed endpoint's name exactly
when the deploy call succeeds, returns `None` when acquiring the execution
role fails or the deploy call raises, and `main`'s deploy action appends the
completion banner and the `.env` suggestion to the run's output only when the
returned value is non-`None` (and truthy) — when it is `None`, `main` emits
exactly the deploy run's own trace. -/
theorem C10_deploy_result (sm : SageMakerBehavior) :
    (∀ e, sm.getExecutionRoleResult = Except.error e →
      (deploy_travel_model sm).2 = none)
    ∧ (∀ role e, sm.getExecutionRoleResult = Except.ok role →
        sm.deployResult (travel_model_cfg role) "travel-assistant-endpoint"
          (HostingConfig.serverless 4096 10) travel_tags = Except.error e →
        (deploy_travel_model sm).2 = none)
    ∧ (∀ role p, sm.getExecutionRoleResult = Except.ok role →
        sm.deployResult (travel_model_cfg role) "travel-assistant-endpoint"
          (HostingConfig.serverless 4096 10) travel_tags = Except.ok p →
        (deploy_travel_model sm).2 = some p.endpoint_name)
    ∧ ((deploy_travel_model sm).2 = none →
        main sm { action := "deploy", endpoint := "travel-assistant-endpoint" } =
          (deploy_travel_model sm).1)
    ∧ (∀ n, (deploy_travel_model sm).2 = some n → n ≠ "" →
        main sm { action := "deploy", endpoint := "travel-assistant-endpoint" } =
          (deploy_travel_model sm).1 ++
          [Event.consoleOut "\n🎉 Deployment complete!",
           Event.consoleOut ("📝 Update your .env file with: SAGEMAKER_ENDPOINT_NAME="
             ++ n)]) := by
  refine ⟨?_, ?_, ?_, ?_, ?_⟩
  · intro e h
    simp [deploy_travel_model, h]
  · intro role e h hd
    simp [deploy_travel_model, h, hd]
  · intro role p h hd
    simp [deploy_travel_model, h, hd]
  · intro hnone
    rcases hm : deploy_travel_model sm with ⟨tr, ro⟩
    rw [hm] at hnone
    cases ro with
    | none => simp [main, hm]
    | some n => exact absurd hnone (by simp)
  · intro n hsome hne
    rcases hm : deploy_travel_model sm with ⟨tr, ro⟩
    rw [hm] at hsome
    cases ro with
    | none => exact absurd hsome (by simp)
    | some n2 =>
        have : n2 = n := by simpa using hsome
        subst this
        simp [main, hm, hne]

/-- Witness for C10 on the role-failure, deploy-failure and all-success
providers, including `main`'s suggestion lines in the success case. -/
theorem C10_deploy_result_witness :
    (deploy_travel_model smRoleFails).2 = none
    ∧ (deploy_travel_model smDeployFails).2 = none
    ∧ (deploy_travel_model smOk).2 = some "travel-assistant-endpoint"
    ∧ main smOk { action := "deploy", endpoint := "travel-assistant-endpoint" } =
        (deploy_travel_model smOk).1 ++
        [Event.consoleOut "\n🎉 Deployment complete!",
         Event.consoleOut ("📝 Update your .env file with: SAGEMAKER_ENDPOINT_NAME="
           ++ "travel-assistant-endpoint")] := by
  have hsome := (C10_deploy_result smOk).2.2.1
    "arn:aws:iam::123456789012:role/SageMakerRole"
    { endpoint_name := "travel-assistant-endpoint" } rfl rfl
  refine ⟨(C10_deploy_result smRoleFails).1
      "The current AWS identity is not a role" rfl,
    (C10_deploy_result smDeployFails).2.1
      "arn:aws:iam::123456789012:role/SageMakerRole" "ResourceLimitExceeded"
      rfl rfl,
    hsome,
    (C10_deploy_result smOk).2.2.2.2 "travel-assistant-endpoint" hsome
      (by decide)⟩
